import Mathlib

/-!
Shallow embedding of the two API services of this repository:
a FastAPI demo (`src/main.py`) with three stateless endpoints, and the
Django patient CRUD resource (`src/Django_guide/patients/views.py`),
whose serializer and store behaviour are modelled from the specification
since the corresponding modules are not part of the sources available.
-/

/-- A JSON-like wire value.  Numbers are modelled as rationals (the JSON
number grammar embeds into `ℚ`; no floating-point rounding is at stake in
any of the properties below). -/
inductive JVal where
  | str (s : String)
  | num (q : ℚ)
  | bool (b : Bool)
  | null
deriving DecidableEq, Repr

/-- A wire payload: a mapping from field names to values, represented as
an association list (first binding wins on lookup). -/
def Payload := List (String × JVal)
deriving DecidableEq, Repr

/-- Field lookup in a payload. -/
def Payload.lookup (p : Payload) (k : String) : Option JVal :=
  List.lookup k p

/- ------------------------------------------------------------------
FastAPI demo service, `src/main.py`.
------------------------------------------------------------------ -/

/-- The `Item` pydantic model of `src/main.py`: `name: str`,
`description: str = None`, `price: float`, `tax: float = None`,
`is_offer: bool = None`.  Fields defaulting to `None` are optional. -/
structure Item where
  name : String
  description : Option String
  price : ℚ
  tax : Option ℚ
  is_offer : Option Bool
deriving DecidableEq, Repr

/-- Validate an optional string field: absent or `null` means `none`;
a string value is accepted; any other type is rejected. -/
def getOptStr (p : Payload) (k : String) : Option (Option String) :=
  match p.lookup k with
  | none => some none
  | some .null => some none
  | some (.str s) => some (some s)
  | some _ => none

/-- Validate an optional number field. -/
def getOptNum (p : Payload) (k : String) : Option (Option ℚ) :=
  match p.lookup k with
  | none => some none
  | some .null => some none
  | some (.num q) => some (some q)
  | some _ => none

/-- Validate an optional boolean field. -/
def getOptBool (p : Payload) (k : String) : Option (Option Bool) :=
  match p.lookup k with
  | none => some none
  | some .null => some none
  | some (.bool b) => some (some b)
  | some _ => none

/-- Validate a required string field: must be present with a string value. -/
def getReqStr (p : Payload) (k : String) : Option String :=
  match p.lookup k with
  | some (.str s) => some s
  | _ => none

/-- Validate a required number field: must be present with a numeric value. -/
def getReqNum (p : Payload) (k : String) : Option ℚ :=
  match p.lookup k with
  | some (.num q) => some q
  | _ => none

/-- Deserialise a request body into an `Item`, validating each field
against its declared type in the `Item` model; on failure the names of
the failing fields are reported. -/
def itemFromWire (p : Payload) : Except (List String) Item :=
  match getReqStr p "name", getOptStr p "description", getReqNum p "price",
        getOptNum p "tax", getOptBool p "is_offer" with
  | some n, some d, some pr, some t, some o => .ok ⟨n, d, pr, t, o⟩
  | _, _, _, _, _ =>
      .error ((if (getReqStr p "name").isNone then ["name"] else []) ++
              (if (getOptStr p "description").isNone then ["description"] else []) ++
              (if (getReqNum p "price").isNone then ["price"] else []) ++
              (if (getOptNum p "tax").isNone then ["tax"] else []) ++
              (if (getOptBool p "is_offer").isNone then ["is_offer"] else []))

/-- Wire value of an optional string (`None` serialises as `null`). -/
def optStrVal : Option String → JVal
  | none => .null
  | some s => .str s

/-- Wire value of an optional number. -/
def optNumVal : Option ℚ → JVal
  | none => .null
  | some q => .num q

/-- Wire value of an optional boolean. -/
def optBoolVal : Option Bool → JVal
  | none => .null
  | some b => .bool b

/-- Serialise an `Item` back to the wire; every declared field is
present, optional fields absent from the model value appear as `null`. -/
def itemToWire (it : Item) : Payload :=
  [("name", .str it.name),
   ("description", optStrVal it.description),
   ("price", .num it.price),
   ("tax", optNumVal it.tax),
   ("is_offer", optBoolVal it.is_offer)]

/-- The `create_item` handler of `src/main.py`: `return item`. -/
def create_item (item : Item) : Item := item

/-- `POST /items/` end to end: validate the body against the `Item`
model; if validation fails the handler never runs and the error is
returned; otherwise the handler's result is serialised. -/
def postItems (body : Payload) : Except (List String) Payload :=
  match itemFromWire body with
  | .error e => .error e
  | .ok it => .ok (itemToWire (create_item it))

/-- The `read_item` handler of `src/main.py`:
`return {"item_id": item_id, "q": q}`. -/
def read_item (item_id : ℤ) (q : Option String) : Payload :=
  [("item_id", .num (item_id : ℚ)), ("q", optStrVal q)]

/-- The `read_root` handler of `src/main.py`:
`return {"message": "Hello World"}`. -/
def read_root : Payload := [("message", .str "Hello World")]

/- ------------------------------------------------------------------
Patient resource, `src/Django_guide/patients/views.py`.
The views delegate to generic list/create/retrieve/update/destroy
behaviour over `PatientSerializer` and the `Patient` model; the
serializer and the record store are modelled from the specification.
------------------------------------------------------------------ -/

/-- Modelled from the spec: the Patient data model (`patients/models.py`
is not among the available sources).  Fields: first_name, last_name,
date_of_birth (ISO date string on the wire), contact_number, email,
address, medical_history — all strings on the wire. -/
structure PatientFields where
  first_name : String
  last_name : String
  date_of_birth : String
  contact_number : String
  email : String
  address : String
  medical_history : String
deriving DecidableEq, Repr

/-- A persisted patient record: a store-assigned identifier plus fields. -/
structure PatientRecord where
  id : ℕ
  fields : PatientFields
deriving DecidableEq, Repr

/-- The declared (all required) patient payload field names. -/
def patientFieldNames : List String :=
  ["first_name", "last_name", "date_of_birth", "contact_number",
   "email", "address", "medical_history"]

/-- Modelled from the spec: one required string field of the patient
serializer — it must be present, of string type, and non-empty. -/
def getPatientStr (p : Payload) (k : String) : Option String :=
  match p.lookup k with
  | some (.str s) => if s = "" then none else some s
  | _ => none

/-- Modelled from the spec: `from_wire(payload) -> Record | ValidationError`
of the patient serializer (`patients/serializers.py` is not among the
available sources).  Rejects payloads missing required fields or with
wrong value types; unknown extra fields are ignored; a validation error
carries the failing field names. -/
def from_wire (p : Payload) : Except (List String) PatientFields :=
  match getPatientStr p "first_name", getPatientStr p "last_name",
        getPatientStr p "date_of_birth", getPatientStr p "contact_number",
        getPatientStr p "email", getPatientStr p "address",
        getPatientStr p "medical_history" with
  | some a, some b, some c, some d, some e, some f, some g =>
      .ok ⟨a, b, c, d, e, f, g⟩
  | _, _, _, _, _, _, _ =>
      .error (patientFieldNames.filter fun k => (getPatientStr p k).isNone)

/-- The declared patient fields serialised, in declaration order. -/
def toWireFields (f : PatientFields) : Payload :=
  [("first_name", .str f.first_name),
   ("last_name", .str f.last_name),
   ("date_of_birth", .str f.date_of_birth),
   ("contact_number", .str f.contact_number),
   ("email", .str f.email),
   ("address", .str f.address),
   ("medical_history", .str f.medical_history)]

/-- Modelled from the spec: `to_wire(Record) -> payload` — every declared
field present, together with the store-assigned identifier. -/
def to_wire (r : PatientRecord) : Payload :=
  ("id", .num (r.id : ℚ)) :: toWireFields r.fields

/-- Modelled from the spec: the record store — durable storage with
store-assigned identifiers. -/
structure Store where
  nextId : ℕ
  records : List PatientRecord
deriving DecidableEq, Repr

/-- The empty store. -/
def Store.empty : Store := ⟨0, []⟩

/-- Store well-formedness: every stored identifier is below the next
identifier to be assigned (hence identifiers are unique and fresh ones
are really fresh). -/
def Store.WF (s : Store) : Prop :=
  ∀ r ∈ s.records, r.id < s.nextId

instance (s : Store) : Decidable s.WF := by
  unfold Store.WF; infer_instance

/-- `get(id) -> Record | NotFound`. -/
def Store.get (s : Store) (i : ℕ) : Option PatientRecord :=
  s.records.find? fun r => r.id = i

/-- `create(fields) -> Record`: assigns the next identifier. -/
def Store.create (s : Store) (f : PatientFields) : PatientRecord × Store :=
  let r : PatientRecord := ⟨s.nextId, f⟩
  (r, ⟨s.nextId + 1, s.records ++ [r]⟩)

/-- `update(id, fields) -> Record | NotFound`: full replacement of the
fields, the identifier is kept. -/
def Store.update (s : Store) (i : ℕ) (f : PatientFields) :
    Option (PatientRecord × Store) :=
  match s.get i with
  | none => none
  | some _ =>
      some (⟨i, f⟩,
        ⟨s.nextId, s.records.map fun r => if r.id = i then ⟨i, f⟩ else r⟩)

/-- `delete(id) -> success | NotFound`: removes the record permanently. -/
def Store.delete (s : Store) (i : ℕ) : Option Store :=
  match s.get i with
  | none => none
  | some _ => some ⟨s.nextId, s.records.filter fun r => r.id ≠ i⟩

/-- HTTP responses of the resource handlers. -/
inductive HttpResponse where
  | ok200 (body : Payload)
  | okList200 (bodies : List Payload)
  | created201 (body : Payload)
  | badRequest400 (fieldErrors : List String)
  | noContent204
  | notFound404
deriving DecidableEq, Repr

/-- Create: POST on the collection path (`ListPatientsView`): `from_wire`
the body; on success store-create and respond 201 with `to_wire` of the
new record; on validation failure respond 400 with the field errors and
create nothing. -/
def createPatient (s : Store) (body : Payload) : HttpResponse × Store :=
  match from_wire body with
  | .error errs => (.badRequest400 errs, s)
  | .ok f =>
      let rs := s.create f
      (.created201 (to_wire rs.1), rs.2)

/-- List: GET on the collection path (`ListPatientsView`): 200 with
`to_wire` of every record. -/
def listPatients (s : Store) : HttpResponse :=
  .okList200 (s.records.map to_wire)

/-- Retrieve: GET on the item path (`DetailPatientView`): 200 with
`to_wire`, or 404 if absent. -/
def retrievePatient (s : Store) (i : ℕ) : HttpResponse :=
  match s.get i with
  | none => .notFound404
  | some r => .ok200 (to_wire r)

/-- Update: PUT on the item path (`DetailPatientView`): store `get` to
confirm existence (404 if absent), then `from_wire` the body (400 on
validation failure), then store `update`, 200 with `to_wire` of the
updated record. -/
def updatePatient (s : Store) (i : ℕ) (body : Payload) :
    HttpResponse × Store :=
  match s.get i with
  | none => (.notFound404, s)
  | some _ =>
      match from_wire body with
      | .error errs => (.badRequest400 errs, s)
      | .ok f =>
          match s.update i f with
          | none => (.notFound404, s)
          | some rs => (.ok200 (to_wire rs.1), rs.2)

/-- Delete: DELETE on the item path (`DetailPatientView`): store
`delete`; 204 on success, 404 if absent. -/
def deletePatient (s : Store) (i : ℕ) : HttpResponse × Store :=
  match s.delete i with
  | none => (.notFound404, s)
  | some s2 => (.noContent204, s2)

/-- The concrete patient payload of the spec's test scenario. -/
def juanPayload : Payload :=
  [("first_name", .str "Juan"), ("last_name", .str "Perez"),
   ("date_of_birth", .str "1980-01-01"), ("contact_number", .str "1234567890"),
   ("email", .str "juan@example.com"), ("address", .str "123 Main St"),
   ("medical_history", .str "None")]

/-- The record fields of the spec's test scenario. -/
def juanFields : PatientFields :=
  ⟨"Juan", "Perez", "1980-01-01", "1234567890",
   "juan@example.com", "123 Main St", "None"⟩

/- ------------------------------------------------------------------
Helper lemmas.
------------------------------------------------------------------ -/

lemma getPatientStr_some {p : Payload} {k : String} {s : String}
    (h : getPatientStr p k = some s) :
    p.lookup k = some (.str s) ∧ s ≠ "" := by
  unfold getPatientStr at h
  split at h
  case _ s2 heq =>
    split at h
    · exact absurd h (by simp)
    · cases h; exact ⟨heq, by assumption⟩
  case _ => exact absurd h (by simp)

lemma from_wire_ok_inv {p : Payload} {f : PatientFields}
    (h : from_wire p = .ok f) :
    getPatientStr p "first_name" = some f.first_name ∧
    getPatientStr p "last_name" = some f.last_name ∧
    getPatientStr p "date_of_birth" = some f.date_of_birth ∧
    getPatientStr p "contact_number" = some f.contact_number ∧
    getPatientStr p "email" = some f.email ∧
    getPatientStr p "address" = some f.address ∧
    getPatientStr p "medical_history" = some f.medical_history := by
  unfold from_wire at h
  split at h
  · cases h; simp_all
  · exact absurd h (by simp)

lemma from_wire_to_wire (i : ℕ) (f : PatientFields)
    (h1 : f.first_name ≠ "") (h2 : f.last_name ≠ "")
    (h3 : f.date_of_birth ≠ "") (h4 : f.contact_number ≠ "")
    (h5 : f.email ≠ "") (h6 : f.address ≠ "")
    (h7 : f.medical_history ≠ "") :
    from_wire (to_wire ⟨i, f⟩) = .ok f := by
  obtain ⟨a, b, c, d, e, f0, g⟩ := f
  simp_all [from_wire, to_wire, toWireFields, getPatientStr, Payload.lookup,
    List.lookup]

lemma find?_append_fresh (l : List PatientRecord) (n : ℕ) (f : PatientFields)
    (h : ∀ r ∈ l, r.id < n) :
    (l ++ [(⟨n, f⟩ : PatientRecord)]).find? (fun r => r.id = n) = some ⟨n, f⟩ := by
  induction l with
  | nil => simp
  | cons r l ih =>
    have hne : r.id ≠ n := Nat.ne_of_lt (h r (by simp))
    rw [List.cons_append, List.find?_cons_of_neg _ (by simp [hne])]
    exact ih fun r2 hr => h r2 (by simp [hr])

lemma find?_filter_ne (l : List PatientRecord) (i : ℕ) :
    (l.filter fun r => r.id ≠ i).find? (fun r => r.id = i) = none := by
  induction l with
  | nil => simp
  | cons r l ih =>
    by_cases h : r.id = i
    · simp [List.filter, h, ih]
    · simp [List.filter, h, List.find?, ih]

lemma find?_map_update (l : List PatientRecord) (i : ℕ) (f : PatientFields)
    (r : PatientRecord) (h : l.find? (fun r => r.id = i) = some r) :
    (l.map fun r => if r.id = i then ⟨i, f⟩ else r).find?
      (fun r => r.id = i) = some ⟨i, f⟩ := by
  induction l with
  | nil => simp at h
  | cons a l ih =>
    by_cases ha : a.id = i
    · simp [ha]
    · have h2 : l.find? (fun r => r.id = i) = some r := by
        simpa [List.find?, ha] using h
      simpa [ha, List.find?] using ih h2

lemma itemFromWire_ok_inv {p : Payload} {it : Item}
    (h : itemFromWire p = .ok it) :
    getReqStr p "name" = some it.name ∧
    getOptStr p "description" = some it.description ∧
    getReqNum p "price" = some it.price ∧
    getOptNum p "tax" = some it.tax ∧
    getOptBool p "is_offer" = some it.is_offer := by
  unfold itemFromWire at h
  split at h
  · cases h; simp_all
  · exact absurd h (by simp)

/- ------------------------------------------------------------------
Concrete fixtures used by the witnesses.
------------------------------------------------------------------ -/

/-- A store holding the single record `⟨0, juanFields⟩`, next id 1. -/
def demoStore : Store := ⟨1, [⟨0, juanFields⟩]⟩

/-- The scenario payload with the required `email` field omitted. -/
def noEmailPayload : Payload :=
  [("first_name", .str "Juan"), ("last_name", .str "Perez"),
   ("date_of_birth", .str "1980-01-01"), ("contact_number", .str "1234567890"),
   ("address", .str "123 Main St"), ("medical_history", .str "None")]

/-- A minimal valid item body: only the required fields. -/
def penPayload : Payload := [("name", .str "Pen"), ("price", .num 3)]

/-- The item `penPayload` denotes. -/
def penItem : Item := ⟨"Pen", none, 3, none, none⟩

/- ------------------------------------------------------------------
Claim theorems.
------------------------------------------------------------------ -/

/-- Claim C2: for every patient payload accepted by `from_wire`,
deserialising, serialising the resulting record back to the wire (under
any identifier), and deserialising again yields the same record fields:
the round trip is stable. -/
theorem from_wire_roundtrip (p : Payload) (i : ℕ) (f : PatientFields)
    (h : from_wire p = .ok f) :
    from_wire (to_wire ⟨i, f⟩) = .ok f := by
  obtain ⟨h1, h2, h3, h4, h5, h6, h7⟩ := from_wire_ok_inv h
  exact from_wire_to_wire i f (getPatientStr_some h1).2 (getPatientStr_some h2).2
    (getPatientStr_some h3).2 (getPatientStr_some h4).2 (getPatientStr_some h5).2
    (getPatientStr_some h6).2 (getPatientStr_some h7).2

/-- Witness for C2 at the spec's concrete scenario payload. -/
theorem from_wire_roundtrip_witness :
    from_wire juanPayload = .ok juanFields ∧
    from_wire (to_wire ⟨0, juanFields⟩) = .ok juanFields :=
  ⟨by rfl, from_wire_roundtrip juanPayload 0 juanFields (by rfl)⟩

/-- Claim C4: updating an identifier absent from the store yields
NotFound for every body, valid or invalid: existence is checked before
payload validation, so a ValidationError is never produced. -/
theorem update_absent_notFound (s : Store) (i : ℕ) (body : Payload)
    (h : s.get i = none) :
    updatePatient s i body = (.notFound404, s) := by
  simp [updatePatient, h]

/-- Witness for C4: id 5 is absent from `demoStore`; a PUT with the
fully valid scenario body still yields 404. -/
theorem update_absent_notFound_witness :
    demoStore.get 5 = none ∧
    updatePatient demoStore 5 juanPayload = (.notFound404, demoStore) :=
  ⟨by rfl, update_absent_notFound demoStore 5 juanPayload (by rfl)⟩

/-- Claim C7: the `create_item` handler is the identity on items, so
`POST /items/` with a body accepted by the `Item` model responds with
exactly the item the body denotes, serialised back to the wire. -/
theorem create_item_identity (body : Payload) (it : Item)
    (h : itemFromWire body = .ok it) :
    create_item it = it ∧ postItems body = .ok (itemToWire it) :=
  ⟨rfl, by simp [postItems, h, create_item]⟩

/-- Witness for C7 at the minimal valid item body. -/
theorem create_item_identity_witness :
    itemFromWire penPayload = .ok penItem ∧
    (create_item penItem = penItem ∧
     postItems penPayload = .ok (itemToWire penItem)) :=
  ⟨by rfl, create_item_identity penPayload penItem (by rfl)⟩

/-- Claim C8: `GET /items/{item_id}?q=` echoes the path parameter and
the optional query string, and the handler is a pure function of these
two inputs: equal inputs give equal outputs. -/
theorem read_item_echo (i1 i2 : ℤ) (q1 q2 : Option String)
    (hi : i1 = i2) (hq : q1 = q2) :
    (read_item i1 q1).lookup "item_id" = some (.num (i1 : ℚ)) ∧
    (read_item i1 q1).lookup "q" = some (optStrVal q1) ∧
    read_item i1 q1 = read_item i2 q2 := by
  subst hi; subst hq
  refine ⟨?_, ?_, rfl⟩ <;> rfl

/-- Witness for C8 at item id 5 and query string "hi". -/
theorem read_item_echo_witness :
    (5 : ℤ) = 5 ∧ (some "hi" : Option String) = some "hi" ∧
    ((read_item 5 (some "hi")).lookup "item_id" = some (.num (5 : ℚ)) ∧
     (read_item 5 (some "hi")).lookup "q" = some (optStrVal (some "hi")) ∧
     read_item 5 (some "hi") = read_item 5 (some "hi")) :=
  ⟨rfl, rfl, read_item_echo 5 5 (some "hi") (some "hi") rfl rfl⟩

/-- An updated set of patient fields, used to exercise update. -/
def mariaFields : PatientFields :=
  ⟨"Maria", "Lopez", "1990-02-03", "0999999999",
   "maria@example.com", "456 Oak Ave", "Allergic to penicillin"⟩

/-- The wire payload of `mariaFields`. -/
def mariaPayload : Payload := toWireFields mariaFields

/-- An item body that omits the required `price` field. -/
def noPricePayload : Payload := [("name", .str "Pen")]

/-- Claim C1: creating a patient from a valid payload responds 201 with
the serialised new record, whose `id` field is the store-assigned
identifier; retrieving that identifier afterwards responds 200 with a
payload that agrees with the submitted one on every declared patient
field (it differs only in the store-assigned `id`). -/
theorem create_then_retrieve (s : Store) (body : Payload) (f : PatientFields)
    (hwf : s.WF) (hv : from_wire body = .ok f) :
    (createPatient s body).1 = .created201 (to_wire ⟨s.nextId, f⟩) ∧
    (to_wire (⟨s.nextId, f⟩ : PatientRecord)).lookup "id"
      = some (.num (s.nextId : ℚ)) ∧
    retrievePatient (createPatient s body).2 s.nextId
      = .ok200 (to_wire ⟨s.nextId, f⟩) ∧
    ∀ k ∈ patientFieldNames,
      (to_wire (⟨s.nextId, f⟩ : PatientRecord)).lookup k = body.lookup k := by
  obtain ⟨h1, h2, h3, h4, h5, h6, h7⟩ := from_wire_ok_inv hv
  refine ⟨?_, ?_, ?_, ?_⟩
  · simp [createPatient, hv, Store.create]
  · rfl
  · have hfind := find?_append_fresh s.records s.nextId f hwf
    simp [createPatient, hv, Store.create, retrievePatient, Store.get, hfind]
  · intro k hk
    have e1 := (getPatientStr_some h1).1
    have e2 := (getPatientStr_some h2).1
    have e3 := (getPatientStr_some h3).1
    have e4 := (getPatientStr_some h4).1
    have e5 := (getPatientStr_some h5).1
    have e6 := (getPatientStr_some h6).1
    have e7 := (getPatientStr_some h7).1
    simp only [Payload.lookup] at e1 e2 e3 e4 e5 e6 e7
    simp only [patientFieldNames, List.mem_cons, List.not_mem_nil, or_false] at hk
    rcases hk with rfl | rfl | rfl | rfl | rfl | rfl | rfl <;>
      simp [to_wire, toWireFields, Payload.lookup, List.lookup,
        e1, e2, e3, e4, e5, e6, e7]

/-- Witness for C1: the spec's concrete scenario on the empty store. -/
theorem create_then_retrieve_witness :
    Store.empty.WF ∧ from_wire juanPayload = .ok juanFields ∧
    ((createPatient Store.empty juanPayload).1
        = .created201 (to_wire ⟨Store.empty.nextId, juanFields⟩) ∧
     (to_wire (⟨Store.empty.nextId, juanFields⟩ : PatientRecord)).lookup "id"
        = some (.num (Store.empty.nextId : ℚ)) ∧
     retrievePatient (createPatient Store.empty juanPayload).2 Store.empty.nextId
        = .ok200 (to_wire ⟨Store.empty.nextId, juanFields⟩) ∧
     ∀ k ∈ patientFieldNames,
       (to_wire (⟨Store.empty.nextId, juanFields⟩ : PatientRecord)).lookup k
          = juanPayload.lookup k) :=
  ⟨by decide, by rfl,
   create_then_retrieve Store.empty juanPayload juanFields (by decide) (by rfl)⟩

/-- Claim C3: deleting a stored patient responds 204, the record is
removed from the store permanently (no record with that identifier
remains), and a subsequent retrieve of the same identifier responds
404. -/
theorem delete_then_retrieve (s : Store) (i : ℕ) (r : PatientRecord)
    (h : s.get i = some r) :
    ∃ s2, deletePatient s i = (.noContent204, s2) ∧
      retrievePatient s2 i = .notFound404 ∧
      ∀ r2 ∈ s2.records, r2.id ≠ i := by
  refine ⟨⟨s.nextId, s.records.filter fun r2 => r2.id ≠ i⟩, ?_, ?_, ?_⟩
  · simp [deletePatient, Store.delete, h]
  · unfold retrievePatient Store.get
    rw [find?_filter_ne]
  · intro r2 hr2
    simp only [List.mem_filter] at hr2
    simpa using hr2.2

/-- Witness for C3: delete then retrieve id 0 on the one-record store. -/
theorem delete_then_retrieve_witness :
    demoStore.get 0 = some ⟨0, juanFields⟩ ∧
    (∃ s2, deletePatient demoStore 0 = (.noContent204, s2) ∧
      retrievePatient s2 0 = .notFound404 ∧
      ∀ r2 ∈ s2.records, r2.id ≠ 0) :=
  ⟨by rfl, delete_then_retrieve demoStore 0 ⟨0, juanFields⟩ (by rfl)⟩

/-- Claim C5: creating a patient from a payload that omits a required
field responds 400 with field errors that reference the omitted field,
and the store is left unchanged: no record is created. -/
theorem create_missing_field (s : Store) (body : Payload) (k : String)
    (hk : k ∈ patientFieldNames) (hm : body.lookup k = none) :
    ∃ errs, createPatient s body = (.badRequest400 errs, s) ∧ k ∈ errs := by
  have hnone : getPatientStr body k = none := by
    simp [getPatientStr, hm]
  have herr : from_wire body =
      .error (patientFieldNames.filter fun k2 => (getPatientStr body k2).isNone) := by
    unfold from_wire
    split
    · rename_i a b c d e f0 g ha hb hc hd he hf hg
      simp only [patientFieldNames, List.mem_cons, List.not_mem_nil, or_false] at hk
      rcases hk with rfl | rfl | rfl | rfl | rfl | rfl | rfl <;> simp_all
    · rfl
  refine ⟨patientFieldNames.filter fun k2 => (getPatientStr body k2).isNone, ?_, ?_⟩
  · simp [createPatient, herr]
  · rw [List.mem_filter]
    exact ⟨hk, by simp [hnone]⟩

/-- Witness for C5: the scenario payload with `email` omitted. -/
theorem create_missing_field_witness :
    "email" ∈ patientFieldNames ∧ noEmailPayload.lookup "email" = none ∧
    (∃ errs, createPatient Store.empty noEmailPayload
        = (.badRequest400 errs, Store.empty) ∧ "email" ∈ errs) :=
  ⟨by simp [patientFieldNames], by rfl,
   create_missing_field Store.empty noEmailPayload "email"
     (by simp [patientFieldNames]) (by rfl)⟩

/-- Claim C6: a PUT on a stored identifier with an accepted payload
responds 200 with the updated record serialised under the same
identifier; the stored record keeps that identifier (only the other
fields are replaced), and the response's `id` field equals it. -/
theorem update_preserves_id (s : Store) (i : ℕ) (body : Payload)
    (r : PatientRecord) (f : PatientFields)
    (hget : s.get i = some r) (hv : from_wire body = .ok f) :
    ∃ s2, updatePatient s i body = (.ok200 (to_wire ⟨i, f⟩), s2) ∧
      s2.get i = some ⟨i, f⟩ ∧
      (to_wire (⟨i, f⟩ : PatientRecord)).lookup "id" = some (.num (i : ℚ)) := by
  have hupd : s.update i f = some (⟨i, f⟩,
      ⟨s.nextId, s.records.map fun r2 => if r2.id = i then ⟨i, f⟩ else r2⟩) := by
    simp [Store.update, hget]
  refine ⟨⟨s.nextId, s.records.map fun r2 => if r2.id = i then ⟨i, f⟩ else r2⟩,
    ?_, ?_, rfl⟩
  · simp [updatePatient, hget, hv, hupd]
  · simp only [Store.get]
    exact find?_map_update s.records i f r hget

/-- Witness for C6: replace record 0's fields by `mariaFields`. -/
theorem update_preserves_id_witness :
    demoStore.get 0 = some ⟨0, juanFields⟩ ∧
    from_wire mariaPayload = .ok mariaFields ∧
    (∃ s2, updatePatient demoStore 0 mariaPayload
        = (.ok200 (to_wire ⟨0, mariaFields⟩), s2) ∧
      s2.get 0 = some ⟨0, mariaFields⟩ ∧
      (to_wire (⟨0, mariaFields⟩ : PatientRecord)).lookup "id"
        = some (.num (0 : ℚ))) :=
  ⟨by rfl, by rfl,
   update_preserves_id demoStore 0 mariaPayload ⟨0, juanFields⟩ mariaFields
     (by rfl) (by rfl)⟩

/-- Claim C9: a valid item body that omits one of the optional fields
(description, tax, is_offer) is echoed with that field present and set
to `null` (the model default), so the response payload is not
field-for-field identical to the submitted body at that field. -/
theorem omitted_optional_null (body : Payload) (it : Item) (k : String)
    (h : itemFromWire body = .ok it)
    (hk : k ∈ (["description", "tax", "is_offer"] : List String))
    (hm : body.lookup k = none) :
    (itemToWire it).lookup k = some .null ∧
    (itemToWire it).lookup k ≠ body.lookup k := by
  obtain ⟨hn, hd, hp, ht, ho⟩ := itemFromWire_ok_inv h
  simp only [List.mem_cons, List.not_mem_nil, or_false] at hk
  rcases hk with rfl | rfl | rfl
  · have hval : it.description = none := by
      have hc : getOptStr body "description" = some none := by simp [getOptStr, hm]
      rw [hc] at hd
      exact (Option.some_injective _ hd).symm
    have h1 : (itemToWire it).lookup "description" = some .null := by
      simp [itemToWire, Payload.lookup, List.lookup, hval, optStrVal]
    exact ⟨h1, by rw [h1, hm]; simp⟩
  · have hval : it.tax = none := by
      have hc : getOptNum body "tax" = some none := by simp [getOptNum, hm]
      rw [hc] at ht
      exact (Option.some_injective _ ht).symm
    have h1 : (itemToWire it).lookup "tax" = some .null := by
      simp [itemToWire, Payload.lookup, List.lookup, hval, optNumVal]
    exact ⟨h1, by rw [h1, hm]; simp⟩
  · have hval : it.is_offer = none := by
      have hc : getOptBool body "is_offer" = some none := by simp [getOptBool, hm]
      rw [hc] at ho
      exact (Option.some_injective _ ho).symm
    have h1 : (itemToWire it).lookup "is_offer" = some .null := by
      simp [itemToWire, Payload.lookup, List.lookup, hval, optBoolVal]
    exact ⟨h1, by rw [h1, hm]; simp⟩

/-- Witness for C9: the minimal valid item body omits `description`. -/
theorem omitted_optional_null_witness :
    itemFromWire penPayload = .ok penItem ∧
    "description" ∈ (["description", "tax", "is_offer"] : List String) ∧
    penPayload.lookup "description" = none ∧
    ((itemToWire penItem).lookup "description" = some .null ∧
     (itemToWire penItem).lookup "description" ≠ penPayload.lookup "description") :=
  ⟨by rfl, by simp, by rfl,
   omitted_optional_null penPayload penItem "description" (by rfl) (by simp) (by rfl)⟩

/-- Claim C10: an item body that omits `name` or `price`, or whose
`price` value is not a number, fails validation: `POST /items/` yields a
validation error naming a required field and no echo payload is
produced (the handler never runs). -/
theorem invalid_item_rejected (body : Payload)
    (h : body.lookup "name" = none ∨ body.lookup "price" = none ∨
         ∀ q : ℚ, body.lookup "price" ≠ some (.num q)) :
    ∃ errs, postItems body = .error errs ∧ ("name" ∈ errs ∨ "price" ∈ errs) := by
  have hbad : (getReqStr body "name").isNone = true ∨
      (getReqNum body "price").isNone = true := by
    rcases h with h | h | h
    · left; simp [getReqStr, h]
    · right; simp [getReqNum, h]
    · right
      unfold getReqNum
      cases hl : body.lookup "price" with
      | none => rfl
      | some v =>
        cases v with
        | num q => exact absurd hl (h q)
        | str s => rfl
        | bool b => rfl
        | null => rfl
  have herr : itemFromWire body = .error
      ((if (getReqStr body "name").isNone then ["name"] else []) ++
       (if (getOptStr body "description").isNone then ["description"] else []) ++
       (if (getReqNum body "price").isNone then ["price"] else []) ++
       (if (getOptNum body "tax").isNone then ["tax"] else []) ++
       (if (getOptBool body "is_offer").isNone then ["is_offer"] else [])) := by
    unfold itemFromWire
    split
    · rename_i n d pr t o hn2 hd2 hp2 ht2 ho2
      rcases hbad with hb | hb <;> simp_all
    · rfl
  refine ⟨_, by rw [postItems, herr], ?_⟩
  rcases hbad with hb | hb
  · left; simp [hb]
  · right; simp [hb]

/-- Witness for C10: an item body with no `price` field is rejected. -/
theorem invalid_item_rejected_witness :
    (noPricePayload.lookup "name" = none ∨ noPricePayload.lookup "price" = none ∨
      ∀ q : ℚ, noPricePayload.lookup "price" ≠ some (.num q)) ∧
    (∃ errs, postItems noPricePayload = .error errs ∧
      ("name" ∈ errs ∨ "price" ∈ errs)) :=
  ⟨Or.inr (Or.inl (by rfl)),
   invalid_item_rejected noPricePayload (Or.inr (Or.inl (by rfl)))⟩
